import Mathlib

/-!
Shallow embedding of the speaker-outreach pipeline
(`src/utils/models.py`, `src/utils/company_classifier.py`,
`src/utils/email_generator.py`, `src/utils/data_processor.py`).

Remote calls to the generative service are modelled by explicit outcome
arguments of type `Except PyErr _`: `.ok` carries the value the running
program would have extracted from the service response, `.error` stands
for any exception raised while issuing the call or while handling its
response. Python dictionaries become association lists, Python `None`
becomes `Option`, and a function that can raise returns `Except PyErr _`
while a function whose body catches every exception is total.
-/

set_option autoImplicit false

namespace DDGtm

/-- A Python exception value, reduced to its class and message. -/
inductive PyErr where
  | valueError (msg : String)
  | exception (msg : String)
deriving DecidableEq, Repr

instance {ε α : Type} [DecidableEq ε] [DecidableEq α] : DecidableEq (Except ε α) :=
  fun x y =>
    match x, y with
    | .error a, .error b =>
        if h : a = b then .isTrue (h ▸ rfl)
        else .isFalse (fun hc => h (Except.error.inj hc))
    | .error _, .ok _ => .isFalse (fun hc => Except.noConfusion hc)
    | .ok _, .error _ => .isFalse (fun hc => Except.noConfusion hc)
    | .ok a, .ok b =>
        if h : a = b then .isTrue (h ▸ rfl)
        else .isFalse (fun hc => h (Except.ok.inj hc))

/-- `True` exactly when an `Except` value is an `.error`. -/
def exceptIsError {ε α : Type} : Except ε α → Bool
  | .error _ => true
  | .ok _ => false

/-- Python `str.strip()`: drop whitespace from both ends. -/
def pyStrip (s : String) : String :=
  ⟨((s.data.dropWhile Char.isWhitespace).reverse.dropWhile Char.isWhitespace).reverse⟩

/-- Python `str.lower()` (inputs in this development are ASCII). -/
def pyLower (s : String) : String :=
  ⟨s.data.map Char.toLower⟩

/-- Python `str.upper()` (inputs in this development are ASCII). -/
def pyUpper (s : String) : String :=
  ⟨s.data.map Char.toUpper⟩

/-- Python `str.strip(c)` for a single character: drop `c` from both ends. -/
def pyStripChar (c : Char) (s : String) : String :=
  ⟨((s.data.dropWhile (· = c)).reverse.dropWhile (· = c)).reverse⟩

/-- `CompanyCategory` from `src/utils/models.py`: a closed `str` enum. -/
inductive CompanyCategory where
  | BUILDER
  | OWNER
  | PARTNER
  | COMPETITOR
  | OTHER
deriving DecidableEq, Repr

/-- The `str` value of each `CompanyCategory` member. -/
def CompanyCategory.value : CompanyCategory → String
  | .BUILDER => "Builder"
  | .OWNER => "Owner"
  | .PARTNER => "Partner"
  | .COMPETITOR => "Competitor"
  | .OTHER => "Other"

/-- The enum constructor `CompanyCategory(v)`: `none` models the `ValueError`
raised when `v` matches no member value. -/
def companyCategoryOfValue? (v : String) : Option CompanyCategory :=
  if v = "Builder" then some .BUILDER
  else if v = "Owner" then some .OWNER
  else if v = "Partner" then some .PARTNER
  else if v = "Competitor" then some .COMPETITOR
  else if v = "Other" then some .OTHER
  else none

/-- `Speaker` from `src/utils/models.py`. -/
structure Speaker where
  name : String
  title : String
  company : String
  company_category : Option CompanyCategory := none
  email_subject : Option String := none
  email_body : Option String := none
deriving DecidableEq, Repr

/-! ## Classification cache (`CompanyClassifier.classification_cache`)

The cache is the in-memory Python dict mapping normalized company name to
category value string; `_save_cache` only mirrors it to disk (and catches
its own errors), so the dict is the whole observable state. -/

/-- The in-memory cache dict, as an association list in insertion order. -/
abbrev Cache := List (String × String)

/-- Python dict assignment `d[k] = v`: update in place, else append. -/
def dictInsert : Cache → String → String → Cache
  | [], k, v => [(k, v)]
  | (k', v') :: rest, k, v =>
      if k' = k then (k, v) :: rest else (k', v') :: dictInsert rest k v

/-- Python dict lookup `d[k]` guarded by `k in d`. -/
def dictLookup : Cache → String → Option String
  | [], _ => none
  | (k', v') :: rest, k => if k' = k then some v' else dictLookup rest k

/-- The key normalization `company_name.strip().lower()` used by both
`_get_cached_classification` and `_cache_classification`. -/
def normalizeCompanyName (companyName : String) : String :=
  pyLower (pyStrip companyName)

/-- `CompanyClassifier._get_cached_classification`: look up the normalized
name; a stored value that is not a valid enum member logs a warning and
counts as a miss. -/
def getCachedClassification (cache : Cache) (companyName : String) :
    Option CompanyCategory :=
  let normalizedName := normalizeCompanyName companyName
  match dictLookup cache normalizedName with
  | some categoryValue => companyCategoryOfValue? categoryValue
  | none => none

/-- `CompanyClassifier._cache_classification`: store `category.value` under the
normalized name (the following `_save_cache` catches its own errors). -/
def cacheClassification (cache : Cache) (companyName : String)
    (category : CompanyCategory) : Cache :=
  dictInsert cache (normalizeCompanyName companyName) category.value

/-! ## Remote classification path (`CompanyClassifier`) -/

/-- Outcomes of the two remote calls made on a cache miss: `research` is the
`output_text` of the web-search research call, `classification` is the
`"category"` field of the parsed structured-classification response
(`ok none` models a parsed object with no `category` key; `.error` models any
exception while calling or parsing). The `confidence` and `reasoning` fields
only feed log lines and are omitted. -/
structure RemoteOutcome where
  research : Except PyErr String
  classification : Except PyErr (Option String)
deriving DecidableEq, Repr

/-- `CompanyClassifier._research_company`: return the stripped response text;
any failure is caught and degrades to the limited-information string. -/
def researchCompany (outcome : Except PyErr String) (companyName : String) :
    String :=
  match outcome with
  | .ok text => pyStrip text
  | .error _ => "Limited information available for " ++ companyName

/-- The `category_map` dict in `_classify_company_with_research`. -/
def categoryMap (token : String) : Option CompanyCategory :=
  if token = "BUILDER" then some .BUILDER
  else if token = "OWNER" then some .OWNER
  else if token = "PARTNER" then some .PARTNER
  else if token = "COMPETITOR" then some .COMPETITOR
  else if token = "OTHER" then some .OTHER
  else none

/-- `CompanyClassifier._classify_company_with_research`: take the `category`
field (defaulting to `"OTHER"` when absent), upper-case it, and map
unrecognized tokens to `OTHER`; any exception is caught and returns `OTHER`.
The company name and research text only feed the prompt. -/
def classifyCompanyWithResearch (outcome : Except PyErr (Option String)) :
    CompanyCategory :=
  match outcome with
  | .error _ => .OTHER
  | .ok categoryField =>
      let category := pyUpper (categoryField.getD "OTHER")
      (categoryMap category).getD .OTHER

/-- `CompanyClassifier._ai_classification`: research, then classify with the
research text. Both callees catch every exception internally, so the
surrounding `try` never reaches its own `except` branch. -/
def aiClassification (outcome : RemoteOutcome) (companyName : String) :
    CompanyCategory :=
  let _companyInfo := researchCompany outcome.research companyName
  classifyCompanyWithResearch outcome.classification

/-- Result of one `classify_company` call: the category, the cache state
afterwards, and how many remote calls were issued (each of the research and
classification steps issues exactly one, hit or fail). -/
structure ClassifyResult where
  category : CompanyCategory
  cache : Cache
  remoteCalls : Nat
deriving DecidableEq, Repr

/-- `CompanyClassifier.classify_company`: cache hit returns immediately
(every member value is a non-empty string, so `if cached_category:` is a
presence test); on a miss the AI path runs and its result is cached before
returning. Every callee catches its own exceptions, so the outer `except`
branch (which would return `OTHER`) is unreachable and the function is
total. -/
def classifyCompany (cache : Cache) (outcome : RemoteOutcome)
    (companyName : String) : ClassifyResult :=
  match getCachedClassification cache companyName with
  | some cachedCategory => ⟨cachedCategory, cache, 0⟩
  | none =>
      let aiCategory := aiClassification outcome companyName
      ⟨aiCategory, cacheClassification cache companyName aiCategory, 2⟩

/-! ## Email generator (`src/utils/email_generator.py`) -/

/-- `EmailGenerationRequest` from `src/utils/models.py`. -/
structure EmailGenerationRequest where
  speaker_name : String
  speaker_title : String
  company_name : String
  company_category : CompanyCategory
  additional_instructions : Option String := none
deriving DecidableEq, Repr

/-- `EmailGenerationResponse` from `src/utils/models.py`. -/
structure EmailGenerationResponse where
  subject : String
  body : String
  category : CompanyCategory
deriving DecidableEq, Repr

/-- The sender fields of `Config` (environment-derived, defaulting to
`"DroneDeploy"` / `"AI Outreach Agent"`). -/
structure SenderConfig where
  senderName : String
  senderTitle : String
deriving DecidableEq, Repr

/-- `EmailGenerator._generate_fallback_email`: a deterministic template over
the request fields and the configured sender. -/
def generateFallbackEmail (cfg : SenderConfig)
    (request : EmailGenerationRequest) : EmailGenerationResponse :=
  if request.company_category = .COMPETITOR then
    { subject := "Conference Connection",
      body := "Hi " ++ request.speaker_name ++
        ", looking forward to connecting at the conference!",
      category := request.company_category }
  else
    { subject := "DroneDeploy Demo at Booth #42",
      body := "Hi " ++ request.speaker_name ++ ",\n\nI\x27d love to show you how DroneDeploy can help " ++
        request.company_name ++
        " with aerial mapping and site documentation. Stop by booth #42 for a demo and free gift!\n\nBest regards,\n" ++
        cfg.senderName ++ "\n" ++ cfg.senderTitle ++ "\nDroneDeploy",
      category := request.company_category }

/-- Outcomes of the two remote generation calls issued by `generate_email`:
each `.ok` carries the `message.content` of the corresponding completion,
`.error` any exception from that call. -/
structure GenOutcome where
  subjectCall : Except PyErr String
  bodyCall : Except PyErr String
deriving DecidableEq, Repr

/-- `EmailGenerator._generate_subject`: strip the response and its
surrounding quote characters; any failure is caught and degrades to the
fallback subject. The prompt only feeds the remote call. -/
def generateSubject (cfg : SenderConfig) (outcome : Except PyErr String)
    (request : EmailGenerationRequest) : String :=
  match outcome with
  | .ok content => pyStripChar '"' (pyStrip content)
  | .error _ => (generateFallbackEmail cfg request).subject

/-- `EmailGenerator._generate_body`: strip the response; any failure is
caught and degrades to the fallback body. -/
def generateBody (cfg : SenderConfig) (outcome : Except PyErr String)
    (request : EmailGenerationRequest) : String :=
  match outcome with
  | .ok content => pyStrip content
  | .error _ => (generateFallbackEmail cfg request).body

/-- `EmailGenerator.generate_email`: with no configured client the
`ValueError` raised inside the `try` is logged by the outer `except` and
re-raised, so it propagates; with a client, subject and body are gathered
from `_generate_subject` and `_generate_body` (which never raise) and the
response is returned. -/
def generateEmail (cfg : SenderConfig) (hasClient : Bool)
    (outcome : GenOutcome) (request : EmailGenerationRequest) :
    Except PyErr EmailGenerationResponse :=
  if hasClient then
    .ok { subject := generateSubject cfg outcome.subjectCall request,
          body := generateBody cfg outcome.bodyCall request,
          category := request.company_category }
  else
    .error (.valueError "OpenAI client not initialized - API key required")

/-! ## Data processor (`src/utils/data_processor.py`) -/

/-- One input row, after `_find_column` has resolved the name, title and
company columns: the raw cell values of those three columns. -/
structure CsvRow where
  name : String
  title : String
  company : String
deriving DecidableEq, Repr

/-- The dedup identity of a row: its raw (name, title, company) triple,
exactly as `drop_duplicates` compares cell values. -/
def rowKey (row : CsvRow) : String × String × String :=
  (row.name, row.title, row.company)

/-- `df.drop_duplicates(subset=[name_col, title_col, company_col],
keep="first")`: walk the rows in order, keeping a row exactly when its raw
triple has not been seen before. -/
def dropDuplicatesFirstAux (seen : List (String × String × String)) :
    List CsvRow → List CsvRow
  | [] => []
  | row :: rest =>
      if rowKey row ∈ seen then dropDuplicatesFirstAux seen rest
      else row :: dropDuplicatesFirstAux (rowKey row :: seen) rest

/-- `df.drop_duplicates(...)` applied to the whole frame. -/
def dropDuplicatesFirst (rows : List CsvRow) : List CsvRow :=
  dropDuplicatesFirstAux [] rows

/-- `DataProcessor._read_csv_file`, after column resolution succeeds:
deduplicate on the raw triples, then build `Speaker`s from the stripped
cell values. -/
def readCsvRows (rows : List CsvRow) : List Speaker :=
  (dropDuplicatesFirst rows).map (fun r =>
    { name := pyStrip r.name, title := pyStrip r.title,
      company := pyStrip r.company })

/-- The speaker-limit step of `DataProcessor.process_speaker_list`:
truncate to `maxSpeakers` entries when the input exceeds it; the Boolean
records whether the truncation warning was logged. -/
def applySpeakerLimit (speakers : List Speaker) (maxSpeakers : Nat) :
    List Speaker × Bool :=
  if speakers.length > maxSpeakers then (speakers.take maxSpeakers, true)
  else (speakers, false)

/-- Outcomes of the two awaited calls inside
`DataProcessor._process_single_speaker`: the `classify_company` call and the
`generate_email` call, each of which the surrounding `try` treats as able to
raise. -/
structure SpeakerCallOutcome where
  classifyCall : Except PyErr CompanyCategory
  generateCall : Except PyErr EmailGenerationResponse
deriving DecidableEq, Repr

/-- `DataProcessor._process_single_speaker`, instrumented with whether
control reached the `generate_email` call: set the category; for
`COMPETITOR`, set the not-applicable sentinels without generating; otherwise
record the generated subject and body. Any exception at any step is caught
by the per-speaker `except`, which overwrites the category with `OTHER` and
sets the error sentinels, and still returns the speaker. -/
def processSingleSpeakerInstrumented (oc : SpeakerCallOutcome)
    (speaker : Speaker) : Speaker × Bool :=
  match oc.classifyCall with
  | .error _ =>
      ({ speaker with company_category := some .OTHER,
                      email_subject := some "Error generating email",
                      email_body := some "Error generating email content" },
       false)
  | .ok category =>
      let speaker1 := { speaker with company_category := some category }
      if category = .COMPETITOR then
        ({ speaker1 with email_subject := some "N/A - Competitor",
                         email_body := some "N/A - Competitor" }, false)
      else
        match oc.generateCall with
        | .error _ =>
            ({ speaker1 with company_category := some .OTHER,
                             email_subject := some "Error generating email",
                             email_body := some "Error generating email content" },
             true)
        | .ok response =>
            ({ speaker1 with email_subject := some response.subject,
                             email_body := some response.body }, true)

/-- `DataProcessor._process_single_speaker`: the returned speaker. -/
def processSingleSpeaker (oc : SpeakerCallOutcome) (speaker : Speaker) :
    Speaker :=
  (processSingleSpeakerInstrumented oc speaker).1

/-- Whether `_process_single_speaker`'s `except` branch runs for this
outcome: the classify call raised, or it returned a non-competitor category
and the generate call raised. -/
def hitsExceptPath (oc : SpeakerCallOutcome) : Bool :=
  match oc.classifyCall with
  | .error _ => true
  | .ok category =>
      if category = .COMPETITOR then false
      else exceptIsError oc.generateCall

/-- `DataProcessor._process_speakers`: slice the list into batches of 5, run
the per-speaker tasks of a batch and gather their results in task order
(`return_exceptions=True`), append every non-exception result to the output
in that order, and move to the next batch. -/
def processSpeakers (procOne : Speaker → Except PyErr Speaker) :
    List Speaker → List Speaker
  | [] => []
  | speaker :: rest =>
      let batch := (speaker :: rest).take 5
      let remaining := (speaker :: rest).drop 5
      let batchResults := batch.map procOne
      (batchResults.foldl (fun acc r =>
        match r with
        | .error _ => acc
        | .ok s => acc ++ [s]) []) ++ processSpeakers procOne remaining
termination_by speakers => speakers.length
decreasing_by
  simp [List.length_drop]
  omega

/-- One row of the output table built by `DataProcessor._write_output`. -/
structure OutputRow where
  speakerName : String
  speakerTitle : String
  speakerCompany : String
  companyCategory : String
  emailSubject : String
  emailBody : String
deriving DecidableEq, Repr

/-- Python `x or default` for an optional string: `None` and the empty
string are both falsy. -/
def pyOrString (s : Option String) (dflt : String) : String :=
  match s with
  | some v => if v = "" then dflt else v
  | none => dflt

/-- The row `_write_output` builds for one speaker (category values are
non-empty strings, so the conditional on `speaker.company_category` is a
presence test). -/
def speakerToOutputRow (speaker : Speaker) : OutputRow :=
  { speakerName := speaker.name,
    speakerTitle := speaker.title,
    speakerCompany := speaker.company,
    companyCategory :=
      match speaker.company_category with
      | some c => c.value
      | none => "Unknown",
    emailSubject := pyOrString speaker.email_subject "N/A",
    emailBody := pyOrString speaker.email_body "N/A" }

/-- The output table `DataProcessor._write_output` writes: one row per
processed speaker, in list order. -/
def writeOutputRows (speakers : List Speaker) : List OutputRow :=
  speakers.map speakerToOutputRow

/-! ## Helper lemmas -/

theorem dictLookup_dictInsert_self (cache : Cache) (k v : String) :
    dictLookup (dictInsert cache k v) k = some v := by
  induction cache with
  | nil => simp [dictInsert, dictLookup]
  | cons entry rest ih =>
      by_cases h : entry.1 = k
      · simp [dictInsert, dictLookup, h]
      · simp [dictInsert, dictLookup, h, ih]

theorem companyCategoryOfValue_value (c : CompanyCategory) :
    companyCategoryOfValue? c.value = some c := by
  cases c <;> decide

theorem getCachedClassification_congr (cache : Cache) (name1 name2 : String)
    (hnorm : normalizeCompanyName name1 = normalizeCompanyName name2) :
    getCachedClassification cache name1 = getCachedClassification cache name2 := by
  unfold getCachedClassification
  rw [hnorm]

theorem getCachedClassification_after_store (cache : Cache)
    (name1 name2 : String) (c : CompanyCategory)
    (hnorm : normalizeCompanyName name1 = normalizeCompanyName name2) :
    getCachedClassification (cacheClassification cache name1 c) name2 = some c := by
  simp only [getCachedClassification, cacheClassification]
  rw [← hnorm, dictLookup_dictInsert_self]
  simp [companyCategoryOfValue_value]

theorem aiClassification_of_classification_error (outcome : RemoteOutcome)
    (companyName : String) (h : exceptIsError outcome.classification = true) :
    aiClassification outcome companyName = .OTHER := by
  unfold aiClassification classifyCompanyWithResearch
  cases hc : outcome.classification with
  | error e => rfl
  | ok v => rw [hc] at h; simp [exceptIsError] at h

/-- After any `classify_company` call, a further call on any spelling with
the same normalized name hits the cache: it returns the first call's
category, leaves the cache unchanged, and issues no remote call. -/
theorem classifyCompany_second_call (cache : Cache)
    (outcome1 outcome2 : RemoteOutcome) (name1 name2 : String)
    (hnorm : normalizeCompanyName name1 = normalizeCompanyName name2) :
    classifyCompany (classifyCompany cache outcome1 name1).cache outcome2 name2 =
      ⟨(classifyCompany cache outcome1 name1).category,
       (classifyCompany cache outcome1 name1).cache, 0⟩ := by
  cases hb : getCachedClassification cache name1 with
  | some c =>
      have h2 : getCachedClassification cache name2 = some c :=
        (getCachedClassification_congr cache name1 name2 hnorm) ▸ hb
      simp [classifyCompany, hb, h2]
  | none =>
      have h2 := getCachedClassification_after_store cache name1 name2
        (aiClassification outcome1 name1) hnorm
      simp [classifyCompany, hb, h2]

theorem collect_ok_foldl (f : Speaker → Speaker) (l : List Speaker)
    (acc : List Speaker) :
    (l.map (fun s => (Except.ok (f s) : Except PyErr Speaker))).foldl
      (fun acc r =>
        match r with
        | .error _ => acc
        | .ok s => acc ++ [s]) acc = acc ++ l.map f := by
  induction l generalizing acc with
  | nil => simp
  | cons a t ih => simp [ih]

/-- When the per-speaker task never raises, the batching loop of
`_process_speakers` is the map of the task over the input list. -/
theorem processSpeakers_ok_eq_map (f : Speaker → Speaker) (l : List Speaker) :
    processSpeakers (fun s => Except.ok (f s)) l = l.map f := by
  have H : ∀ (n : Nat) (l : List Speaker), l.length ≤ n →
      processSpeakers (fun s => Except.ok (f s)) l = l.map f := by
    intro n
    induction n with
    | zero =>
        intro l hl
        have hnil : l = [] := List.eq_nil_of_length_eq_zero (Nat.le_zero.mp hl)
        subst hnil
        simp [processSpeakers]
    | succ n ih =>
        intro l hl
        match l with
        | [] => simp [processSpeakers]
        | a :: t =>
            rw [processSpeakers]
            rw [collect_ok_foldl f ((a :: t).take 5) []]
            rw [ih ((a :: t).drop 5)
              (by simp [List.length_drop, List.length_cons] at hl ⊢; omega)]
            rw [List.nil_append, ← List.map_append, List.take_append_drop]
  exact H l.length l (Nat.le_refl _)

theorem dropDuplicatesFirstAux_nodup_and_fresh (rows : List CsvRow) :
    ∀ seen : List (String × String × String),
      ((dropDuplicatesFirstAux seen rows).map rowKey).Nodup ∧
      ∀ r ∈ dropDuplicatesFirstAux seen rows, rowKey r ∉ seen := by
  induction rows with
  | nil => intro seen; simp [dropDuplicatesFirstAux]
  | cons row rest ih =>
      intro seen
      by_cases h : rowKey row ∈ seen
      · simpa [dropDuplicatesFirstAux, h] using ih seen
      · obtain ⟨hnd, hfresh⟩ := ih (rowKey row :: seen)
        simp only [dropDuplicatesFirstAux, h, if_false, List.map_cons]
        constructor
        · refine List.nodup_cons.mpr ⟨?_, hnd⟩
          intro hmem
          obtain ⟨r, hr, hkey⟩ := List.mem_map.mp hmem
          exact (hfresh r hr) (hkey ▸ List.mem_cons_self _ _)
        · intro r hr
          rcases List.mem_cons.mp hr with heq | htail
          · exact heq ▸ h
          · exact fun hseen => (hfresh r htail) (List.mem_cons_of_mem _ hseen)

/-- The dedup step keeps at most one row per exact raw triple. -/
theorem dropDuplicatesFirst_keys_nodup (rows : List CsvRow) :
    ((dropDuplicatesFirst rows).map rowKey).Nodup :=
  (dropDuplicatesFirstAux_nodup_and_fresh rows []).1

/-- When the per-speaker `except` branch runs, the speaker is returned with
category `OTHER` and the fixed error sentinels. -/
theorem processSingleSpeaker_error_sentinels (oc : SpeakerCallOutcome)
    (s : Speaker) (h : hitsExceptPath oc = true) :
    processSingleSpeaker oc s =
      { s with company_category := some .OTHER,
               email_subject := some "Error generating email",
               email_body := some "Error generating email content" } := by
  unfold processSingleSpeaker processSingleSpeakerInstrumented
  unfold hitsExceptPath at h
  cases hc : oc.classifyCall with
  | error e => simp
  | ok c =>
      rw [hc] at h
      by_cases hcomp : c = CompanyCategory.COMPETITOR
      · simp [hcomp] at h
      · simp only [hcomp, if_false] at h
        cases hg : oc.generateCall with
        | error e => simp [hcomp]
        | ok resp => rw [hg] at h; simp [exceptIsError] at h

/-! ## Claim theorems -/

/-- C1: for every company name, `classify_company` returns exactly one of
the five enumerated categories and never raises — the embedding is a total
function into the category enum — and any internal failure (here: the
structured-classification step failing on a cache miss) degrades the result
to `OTHER`. -/
theorem classify_company_exhaustive_and_degrades (cache : Cache)
    (outcome : RemoteOutcome) (companyName : String) :
    (classifyCompany cache outcome companyName).category ∈
      [CompanyCategory.BUILDER, CompanyCategory.OWNER, CompanyCategory.PARTNER,
       CompanyCategory.COMPETITOR, CompanyCategory.OTHER] ∧
    (getCachedClassification cache companyName = none →
      exceptIsError outcome.classification = true →
      (classifyCompany cache outcome companyName).category =
        CompanyCategory.OTHER) := by
  constructor
  · cases (classifyCompany cache outcome companyName).category <;> simp
  · intro hmiss herr
    simp [classifyCompany, hmiss,
      aiClassification_of_classification_error outcome companyName herr]

/-- Witness for C1 at a concrete failing input. -/
theorem classify_company_exhaustive_and_degrades_witness :
    (classifyCompany []
      ⟨Except.error (PyErr.exception "network down"),
       Except.error (PyErr.exception "network down")⟩ "Acme").category =
      CompanyCategory.OTHER :=
  (classify_company_exhaustive_and_degrades []
      ⟨Except.error (PyErr.exception "network down"),
       Except.error (PyErr.exception "network down")⟩ "Acme").2
    (by decide) (by decide)

/-- C5: cache keys are normalized by trimming and case-folding before both
lookup and store, so after any spelling of a company name is classified,
classifying any other spelling with the same normalized name hits the same
cache entry: it returns the first call's category, leaves the cache
unchanged, and issues zero remote calls. -/
theorem cache_key_normalization (cache : Cache)
    (outcome1 outcome2 : RemoteOutcome) (name1 name2 : String)
    (hnorm : normalizeCompanyName name1 = normalizeCompanyName name2) :
    classifyCompany (classifyCompany cache outcome1 name1).cache outcome2 name2 =
      ⟨(classifyCompany cache outcome1 name1).category,
       (classifyCompany cache outcome1 name1).cache, 0⟩ :=
  classifyCompany_second_call cache outcome1 outcome2 name1 name2 hnorm

/-- Witness for C5: "Acme Corp", "acme corp " and "ACME CORP" all resolve
through the entry written by the first call. -/
theorem cache_key_normalization_witness :
    (classifyCompany
        (classifyCompany [] ⟨Except.ok "research text",
          Except.ok (some "Partner")⟩ "Acme Corp").cache
        ⟨Except.ok "other text", Except.ok (some "COMPETITOR")⟩ "acme corp " =
      ⟨(classifyCompany [] ⟨Except.ok "research text",
          Except.ok (some "Partner")⟩ "Acme Corp").category,
       (classifyCompany [] ⟨Except.ok "research text",
          Except.ok (some "Partner")⟩ "Acme Corp").cache, 0⟩) ∧
    (classifyCompany
        (classifyCompany [] ⟨Except.ok "research text",
          Except.ok (some "Partner")⟩ "Acme Corp").cache
        ⟨Except.ok "other text", Except.ok (some "COMPETITOR")⟩ "ACME CORP" =
      ⟨(classifyCompany [] ⟨Except.ok "research text",
          Except.ok (some "Partner")⟩ "Acme Corp").category,
       (classifyCompany [] ⟨Except.ok "research text",
          Except.ok (some "Partner")⟩ "Acme Corp").cache, 0⟩) :=
  ⟨cache_key_normalization [] ⟨Except.ok "research text",
      Except.ok (some "Partner")⟩ ⟨Except.ok "other text",
      Except.ok (some "COMPETITOR")⟩ "Acme Corp" "acme corp " (by decide),
   cache_key_normalization [] ⟨Except.ok "research text",
      Except.ok (some "Partner")⟩ ⟨Except.ok "other text",
      Except.ok (some "COMPETITOR")⟩ "Acme Corp" "ACME CORP" (by decide)⟩

/-- C9: on a cache miss where both remote steps fail, the degraded `OTHER`
is still written to the cache under the normalized name, and every later
classify of any spelling with that normalized name returns the cached
`OTHER` with an unchanged cache and zero remote calls. -/
theorem degraded_other_is_cached (cache : Cache)
    (outcome1 outcome2 : RemoteOutcome) (name1 name2 : String)
    (hmiss : getCachedClassification cache name1 = none)
    (_hres : exceptIsError outcome1.research = true)
    (hcls : exceptIsError outcome1.classification = true)
    (hnorm : normalizeCompanyName name1 = normalizeCompanyName name2) :
    (classifyCompany cache outcome1 name1).category = CompanyCategory.OTHER ∧
    dictLookup (classifyCompany cache outcome1 name1).cache
      (normalizeCompanyName name1) = some "Other" ∧
    classifyCompany (classifyCompany cache outcome1 name1).cache outcome2
        name2 =
      ⟨CompanyCategory.OTHER,
       (classifyCompany cache outcome1 name1).cache, 0⟩ := by
  have hai := aiClassification_of_classification_error outcome1 name1 hcls
  have hcat : (classifyCompany cache outcome1 name1).category =
      CompanyCategory.OTHER := by
    simp [classifyCompany, hmiss, hai]
  refine ⟨hcat, ?_, ?_⟩
  · have hcache : (classifyCompany cache outcome1 name1).cache =
        dictInsert cache (normalizeCompanyName name1) "Other" := by
      simp [classifyCompany, hmiss, hai, cacheClassification,
        CompanyCategory.value]
    rw [hcache, dictLookup_dictInsert_self]
  · rw [classifyCompany_second_call cache outcome1 outcome2 name1 name2 hnorm,
      hcat]

/-- Witness for C9 at a concrete failing input. -/
theorem degraded_other_is_cached_witness :
    (classifyCompany []
      ⟨Except.error (PyErr.exception "network down"),
       Except.error (PyErr.exception "network down")⟩ "Acme Corp").category =
      CompanyCategory.OTHER ∧
    dictLookup (classifyCompany []
      ⟨Except.error (PyErr.exception "network down"),
       Except.error (PyErr.exception "network down")⟩ "Acme Corp").cache
      (normalizeCompanyName "Acme Corp") = some "Other" ∧
    classifyCompany (classifyCompany []
      ⟨Except.error (PyErr.exception "network down"),
       Except.error (PyErr.exception "network down")⟩ "Acme Corp").cache
      ⟨Except.ok "other text", Except.ok (some "COMPETITOR")⟩ "ACME CORP" =
      ⟨CompanyCategory.OTHER,
       (classifyCompany []
        ⟨Except.error (PyErr.exception "network down"),
         Except.error (PyErr.exception "network down")⟩ "Acme Corp").cache,
       0⟩ :=
  degraded_other_is_cached []
    ⟨Except.error (PyErr.exception "network down"),
     Except.error (PyErr.exception "network down")⟩
    ⟨Except.ok "other text", Except.ok (some "COMPETITOR")⟩
    "Acme Corp" "ACME CORP" (by decide) (by decide) (by decide) (by decide)

/-- C2: a per-speaker failure is caught at the speaker boundary: the batch
loop still yields one output per input speaker (in order), and any speaker
whose processing raises at any step is returned with category `OTHER` and
the fixed error sentinels while every other speaker's result is its own
normal processing, unaffected. -/
theorem speaker_failure_isolation (ocf : Speaker → SpeakerCallOutcome)
    (speakers : List Speaker) :
    processSpeakers (fun s => Except.ok (processSingleSpeaker (ocf s) s))
        speakers
      = speakers.map (fun s => processSingleSpeaker (ocf s) s) ∧
    (processSpeakers (fun s => Except.ok (processSingleSpeaker (ocf s) s))
        speakers).length = speakers.length ∧
    ∀ s : Speaker, hitsExceptPath (ocf s) = true →
      processSingleSpeaker (ocf s) s =
        { s with company_category := some CompanyCategory.OTHER,
                 email_subject := some "Error generating email",
                 email_body := some "Error generating email content" } := by
  have hmap := processSpeakers_ok_eq_map
    (fun s => processSingleSpeaker (ocf s) s) speakers
  exact ⟨hmap, by rw [hmap, List.length_map],
    fun s hs => processSingleSpeaker_error_sentinels (ocf s) s hs⟩

/-- A per-speaker outcome where every awaited call raises. -/
def witnessOutcomeFail : SpeakerCallOutcome :=
  ⟨Except.error (PyErr.exception "boom"), Except.error (PyErr.exception "boom")⟩

/-- A per-speaker outcome where both awaited calls succeed. -/
def witnessOutcomeOk : SpeakerCallOutcome :=
  ⟨Except.ok CompanyCategory.BUILDER,
   Except.ok ⟨"Visit booth #42", "Hello!", CompanyCategory.BUILDER⟩⟩

/-- Per-speaker outcomes where only the speaker named "Alice" fails. -/
def witnessOcf (s : Speaker) : SpeakerCallOutcome :=
  if s.name = "Alice" then witnessOutcomeFail else witnessOutcomeOk

/-- A concrete two-speaker input. -/
def witnessSpeakers : List Speaker :=
  [⟨"Alice", "CTO", "DroneCo", none, none, none⟩,
   ⟨"Bob", "CEO", "BuildCo", none, none, none⟩]

/-- Witness for C2: with Alice's calls failing and Bob's succeeding, both
speakers appear in the output and Alice carries the error sentinels. -/
theorem speaker_failure_isolation_witness :
    (processSpeakers (fun s => Except.ok (processSingleSpeaker (witnessOcf s) s))
        witnessSpeakers).length = witnessSpeakers.length ∧
    processSingleSpeaker (witnessOcf ⟨"Alice", "CTO", "DroneCo", none, none, none⟩)
        ⟨"Alice", "CTO", "DroneCo", none, none, none⟩ =
      { name := "Alice", title := "CTO", company := "DroneCo",
        company_category := some CompanyCategory.OTHER,
        email_subject := some "Error generating email",
        email_body := some "Error generating email content" } :=
  ⟨(speaker_failure_isolation witnessOcf witnessSpeakers).2.1,
   (speaker_failure_isolation witnessOcf witnessSpeakers).2.2
     ⟨"Alice", "CTO", "DroneCo", none, none, none⟩ (by decide)⟩

/-- C3 as stated is false: `drop_duplicates` compares the raw cell values,
with no case or whitespace normalization, so the spec's example input keeps
all three rows rather than 2. -/
theorem dedup_example_counterexample :
    (dropDuplicatesFirst
      [⟨"A", "T", "C"⟩, ⟨"a", " t ", "c"⟩, ⟨"B", "T2", "C2"⟩]).length ≠ 2 ∧
    (readCsvRows
      [⟨"A", "T", "C"⟩, ⟨"a", " t ", "c"⟩, ⟨"B", "T2", "C2"⟩]).length = 3 := by
  constructor
  · decide
  · decide

/-- C3 amended: deduplication keys on the exact raw (name, title, company)
tuple — no case folding and no whitespace trimming, since stripping happens
only after the dedup — keeping the first occurrence per tuple, so at most
one row survives per exact tuple, the spec's example yields 3 rows, and an
exact repeat is dropped in favor of its first occurrence. -/
theorem dedup_raw_tuple_keeps_first :
    (∀ rows : List CsvRow, ((dropDuplicatesFirst rows).map rowKey).Nodup) ∧
    readCsvRows [⟨"A", "T", "C"⟩, ⟨"a", " t ", "c"⟩, ⟨"B", "T2", "C2"⟩] =
      [⟨"A", "T", "C", none, none, none⟩, ⟨"a", "t", "c", none, none, none⟩,
       ⟨"B", "T2", "C2", none, none, none⟩] ∧
    readCsvRows [⟨"A", "T", "C"⟩, ⟨"A", "T", "C"⟩, ⟨"B", "T2", "C2"⟩] =
      [⟨"A", "T", "C", none, none, none⟩,
       ⟨"B", "T2", "C2", none, none, none⟩] :=
  ⟨dropDuplicatesFirst_keys_nodup, by decide, by decide⟩

/-- C4: when the classify call returns `COMPETITOR`, the generator is never
invoked and both email fields are set to the fixed not-applicable
sentinels. -/
theorem competitor_never_generates (oc : SpeakerCallOutcome)
    (speaker : Speaker)
    (h : oc.classifyCall = Except.ok CompanyCategory.COMPETITOR) :
    (processSingleSpeakerInstrumented oc speaker).2 = false ∧
    (processSingleSpeakerInstrumented oc speaker).1.email_subject =
      some "N/A - Competitor" ∧
    (processSingleSpeakerInstrumented oc speaker).1.email_body =
      some "N/A - Competitor" ∧
    (processSingleSpeakerInstrumented oc speaker).1.company_category =
      some CompanyCategory.COMPETITOR := by
  simp [processSingleSpeakerInstrumented, h]

/-- Witness for C4 at a concrete competitor speaker. -/
theorem competitor_never_generates_witness :
    (processSingleSpeakerInstrumented
      ⟨Except.ok CompanyCategory.COMPETITOR,
       Except.ok ⟨"s", "b", CompanyCategory.COMPETITOR⟩⟩
      ⟨"Carol", "VP", "MapCo", none, none, none⟩).2 = false ∧
    (processSingleSpeakerInstrumented
      ⟨Except.ok CompanyCategory.COMPETITOR,
       Except.ok ⟨"s", "b", CompanyCategory.COMPETITOR⟩⟩
      ⟨"Carol", "VP", "MapCo", none, none, none⟩).1.email_subject =
      some "N/A - Competitor" ∧
    (processSingleSpeakerInstrumented
      ⟨Except.ok CompanyCategory.COMPETITOR,
       Except.ok ⟨"s", "b", CompanyCategory.COMPETITOR⟩⟩
      ⟨"Carol", "VP", "MapCo", none, none, none⟩).1.email_body =
      some "N/A - Competitor" ∧
    (processSingleSpeakerInstrumented
      ⟨Except.ok CompanyCategory.COMPETITOR,
       Except.ok ⟨"s", "b", CompanyCategory.COMPETITOR⟩⟩
      ⟨"Carol", "VP", "MapCo", none, none, none⟩).1.company_category =
      some CompanyCategory.COMPETITOR :=
  competitor_never_generates
    ⟨Except.ok CompanyCategory.COMPETITOR,
     Except.ok ⟨"s", "b", CompanyCategory.COMPETITOR⟩⟩
    ⟨"Carol", "VP", "MapCo", none, none, none⟩ rfl

/-- C6: with no configured client, `generate_email` propagates the
`ValueError` to the caller instead of degrading to a fallback result. -/
theorem no_client_generate_email_raises (cfg : SenderConfig)
    (outcome : GenOutcome) (request : EmailGenerationRequest) :
    generateEmail cfg false outcome request =
      Except.error
        (PyErr.valueError "OpenAI client not initialized - API key required") :=
  rfl

/-- C7: with a configured client, a failed subject or body call degrades
that part to the deterministic fallback template over the request fields,
and `generate_email` still returns a successful response. -/
theorem generation_failure_falls_back (cfg : SenderConfig)
    (outcome : GenOutcome) (request : EmailGenerationRequest)
    (_h : exceptIsError outcome.subjectCall = true ∨
      exceptIsError outcome.bodyCall = true) :
    ∃ response, generateEmail cfg true outcome request = Except.ok response ∧
      (exceptIsError outcome.subjectCall = true →
        response.subject = (generateFallbackEmail cfg request).subject) ∧
      (exceptIsError outcome.bodyCall = true →
        response.body = (generateFallbackEmail cfg request).body) := by
  refine ⟨{ subject := generateSubject cfg outcome.subjectCall request,
            body := generateBody cfg outcome.bodyCall request,
            category := request.company_category }, rfl, ?_, ?_⟩
  · intro hs
    cases hsc : outcome.subjectCall with
    | error e => simp [generateSubject, hsc]
    | ok c => rw [hsc] at hs; simp [exceptIsError] at hs
  · intro hb
    cases hbc : outcome.bodyCall with
    | error e => simp [generateBody, hbc]
    | ok c => rw [hbc] at hb; simp [exceptIsError] at hb

/-- Witness for C7: a failed subject call with a successful body call. -/
theorem generation_failure_falls_back_witness :
    ∃ response,
      generateEmail ⟨"DroneDeploy", "AI Outreach Agent"⟩ true
        ⟨Except.error (PyErr.exception "rate limited"), Except.ok "A body."⟩
        ⟨"Dan", "PM", "BuildCo", CompanyCategory.BUILDER, none⟩ =
        Except.ok response ∧
      (exceptIsError
          (Except.error (PyErr.exception "rate limited") : Except PyErr String) =
            true →
        response.subject =
          (generateFallbackEmail ⟨"DroneDeploy", "AI Outreach Agent"⟩
            ⟨"Dan", "PM", "BuildCo", CompanyCategory.BUILDER, none⟩).subject) ∧
      (exceptIsError (Except.ok "A body." : Except PyErr String) = true →
        response.body =
          (generateFallbackEmail ⟨"DroneDeploy", "AI Outreach Agent"⟩
            ⟨"Dan", "PM", "BuildCo", CompanyCategory.BUILDER, none⟩).body) :=
  generation_failure_falls_back ⟨"DroneDeploy", "AI Outreach Agent"⟩
    ⟨Except.error (PyErr.exception "rate limited"), Except.ok "A body."⟩
    ⟨"Dan", "PM", "BuildCo", CompanyCategory.BUILDER, none⟩
    (Or.inl (by decide))

/-- C8: when the input exceeds the limit, exactly the first `limit` speakers
remain, the truncation warning is logged, and the batch loop processes
exactly that many. -/
theorem limit_truncation (speakers : List Speaker) (maxSpeakers : Nat)
    (f : Speaker → Speaker) (h : speakers.length > maxSpeakers) :
    (applySpeakerLimit speakers maxSpeakers).1 = speakers.take maxSpeakers ∧
    (applySpeakerLimit speakers maxSpeakers).1.length = maxSpeakers ∧
    (applySpeakerLimit speakers maxSpeakers).2 = true ∧
    (processSpeakers (fun s => Except.ok (f s))
      (applySpeakerLimit speakers maxSpeakers).1).length = maxSpeakers := by
  have h1 : (applySpeakerLimit speakers maxSpeakers).1 =
      speakers.take maxSpeakers := by
    simp [applySpeakerLimit, h]
  have hlen : (speakers.take maxSpeakers).length = maxSpeakers := by
    simp [List.length_take]
    omega
  refine ⟨h1, by rw [h1, hlen], by simp [applySpeakerLimit, h], ?_⟩
  rw [h1, processSpeakers_ok_eq_map, List.length_map, hlen]

/-- A concrete input of 20 identical speakers. -/
def speakers20 : List Speaker :=
  List.replicate 20 ⟨"A", "T", "C", none, none, none⟩

/-- Witness for C8: 20 input speakers with limit 5 yield exactly 5
processed and a logged warning. -/
theorem limit_truncation_witness :
    (applySpeakerLimit speakers20 5).1 = speakers20.take 5 ∧
    (applySpeakerLimit speakers20 5).1.length = 5 ∧
    (applySpeakerLimit speakers20 5).2 = true ∧
    (processSpeakers (fun s => Except.ok (id s))
      (applySpeakerLimit speakers20 5).1).length = 5 :=
  limit_truncation speakers20 5 id (by decide)

/-- C10: the batch loop takes batches in input order and collects each
batch's results in task-launch order, so the processed speakers — and the
output table rows built from them — appear in the same relative order as
the input list. -/
theorem output_preserves_input_order (ocf : Speaker → SpeakerCallOutcome)
    (speakers : List Speaker) :
    processSpeakers (fun s => Except.ok (processSingleSpeaker (ocf s) s))
        speakers
      = speakers.map (fun s => processSingleSpeaker (ocf s) s) ∧
    writeOutputRows
        (processSpeakers (fun s => Except.ok (processSingleSpeaker (ocf s) s))
          speakers)
      = speakers.map
          (fun s => speakerToOutputRow (processSingleSpeaker (ocf s) s)) := by
  have hmap := processSpeakers_ok_eq_map
    (fun s => processSingleSpeaker (ocf s) s) speakers
  refine ⟨hmap, ?_⟩
  rw [hmap]
  simp [writeOutputRows, List.map_map, Function.comp]

end DDGtm
